import Mathlib

/-!
Verification of the msd-seo-audit analysis-and-scoring pipeline.

Shallow embedding of the JavaScript sources:
- `src/seo-scorer.js` (class SEOScorer)
- `src/url-normalizer.js` (class URLNormalizer)
- `src/sitemap-analyzer.js` (class SitemapAnalyzer)
- the main actor file (SEOAnalyzer.analyzeLinks, calculateDomainAnalysis)

Modelling conventions:
- JavaScript numbers that are known integers are modelled as `Int`/`Nat`;
  general numbers (domain aggregation) as `Rat`.  A non-finite JavaScript
  number (NaN or an infinity, which arises only from division by zero here)
  is modelled as `none` in `Option Rat`.
- `Math.round x` is `⌊x + 1/2⌋` (JavaScript rounds halves towards +∞).
- A possibly-`undefined` field is an `Option`; the JavaScript idiom
  `a || b` on numbers (falsy: undefined and 0) is `jsOrZ`.
- Network effects (axios fetches) are modelled as an explicit environment
  function passed to the sitemap walker; the WHATWG `URL` runtime class is
  modelled by a small parser covering absolute http/https URLs,
  fragment-only references and path-absolute references (the forms the
  analyzed pages exercise); all other hrefs are treated as unresolvable,
  exactly as a `new URL` throw is caught and skipped in the source.
-/

/-- JavaScript `Math.round` on a rational: round half towards positive
infinity. -/
def jsRound (q : ℚ) : ℤ := ⌊q + 1/2⌋

/-- JavaScript `a || b` for a possibly-undefined number `a`:
falsy values (undefined, 0) fall through to the default. -/
def jsOrZ (o : Option ℤ) (d : ℤ) : ℤ :=
  match o with
  | some n => if n = 0 then d else n
  | none => d

/-- Lower-case a character list (ASCII, mirroring what the source's regexes
and `toLowerCase` do on the ASCII data they receive). -/
def lowerL (l : List Char) : List Char := l.map Char.toLower

/-- Lower-case a string via its character list. -/
def strLower (s : String) : String := String.mk (lowerL s.toList)

/-- Containment of `pat` in a character list, checking a prefix match at
every position. -/
def containsL (pat : List Char) : List Char → Bool
  | [] => pat.isEmpty
  | c :: rest => pat.isPrefixOf (c :: rest) || containsL pat rest

/-- Substring containment test, modelling JavaScript `String.prototype.includes`. -/
def strContainsSub (s pat : String) : Bool := containsL pat.toList s.toList

/-- Suffix test, modelling JavaScript `String.prototype.endsWith`. -/
def strEndsWith (s suffix : String) : Bool := suffix.toList.isSuffixOf s.toList

/-- JavaScript `String.prototype.trim` (whitespace from both ends),
modelled on the character list. -/
def trimL (l : List Char) : List Char :=
  ((l.dropWhile Char.isWhitespace).reverse.dropWhile Char.isWhitespace).reverse

/-- Trim a string, modelling `$(link).text().trim()`. -/
def strTrim (s : String) : String := String.mk (trimL s.toList)

/-! ## SEO Scorer (src/seo-scorer.js)

The input record `SeoData` models the feature record handed to
`SEOScorer.calculateScore`.  Fields the scorer reads with a
`Number(x || y)` guard are `Option Int` (undefined possible); booleans
model JavaScript truthiness of the corresponding flag fields; string
fields model the raw strings (truthy iff non-empty). -/

structure SeoData where
  title : String := ""
  description : String := ""
  titleLength : Option ℤ := none
  descriptionLength : Option ℤ := none
  headingScore : Option ℤ := none
  h1 : Option (List String) := none
  h1Count : Option ℤ := none
  h2Count : Option ℤ := none
  h3Count : Option ℤ := none
  hasHttps : Bool := false
  xRobots : Option String := none
  metaRobots : Option String := none
  favicon : Bool := false
  hasOpenGraph : Bool := false
  viewport : Bool := false
  wordcountcontentonly : Option ℤ := none
  words : Option ℤ := none
  totalwordcount : Option ℤ := none
  wordcount : Option ℤ := none
  strongTags : Option ℤ := none
  imagesWithoutAlt : Option ℤ := none
  hasSchema : Bool := false
  hasJsonLd : Bool := false
  canonicalUrl : String := ""
  hasHreflang : Bool := false
  appleTouchIcon : Bool := false
  javascriptFiles : Option ℤ := none
  cssFiles : Option ℤ := none

/-- Section 1 of `calculateScore`: title optimization (delta, issues). -/
def scoreTitle (d : SeoData) : ℤ × List String :=
  let title := d.title
  let titleLength := jsOrZ d.titleLength (jsOrZ (some (title.length : ℤ)) 0)
  if title = "" ∨ titleLength < 10 then (-15, ["missing/short title"])
  else if titleLength > 60 then (-8, ["title too long"])
  else if titleLength < 30 then (-5, ["title could be longer"])
  else (0, [])

/-- Section 2 of `calculateScore`: meta description. -/
def scoreDescription (d : SeoData) : ℤ × List String :=
  let description := d.description
  let descLength := jsOrZ d.descriptionLength (jsOrZ (some (description.length : ℤ)) 0)
  if description = "" ∨ descLength < 120 then (-12, ["missing/short meta description"])
  else if descLength > 160 then (-6, ["meta description too long"])
  else (0, [])

/-- Section 3 of `calculateScore`: heading structure.  When a precomputed
heading score is present the source computes `Math.floor(headingScore * 0.2) - 20`;
for integer inputs the double-precision product never rounds below the exact
value, so the floor equals `⌊headingScore / 5⌋`. -/
def scoreHeadings (d : SeoData) : ℤ × List String :=
  match d.headingScore with
  | some headingScore =>
    (⌊(headingScore : ℚ) / 5⌋ - 20,
      if headingScore < 50 then ["poor heading structure"] else [])
  | none =>
    let h1Count := jsOrZ d.h1Count (match d.h1 with | some l => (l.length : ℤ) | none => 0)
    let h2Count := jsOrZ d.h2Count 0
    let h3Count := jsOrZ d.h3Count 0
    let base : ℤ × List String :=
      if h1Count = 0 then (-18, ["missing H1"])
      else if h1Count > 1 then (-12, ["multiple H1 tags"])
      else (0, [])
    let bonus1 : ℤ := if h1Count = 1 ∧ h2Count > 0 then 2 else 0
    let bonus2 : ℤ := if h2Count > 0 ∧ h3Count > 0 then 1 else 0
    (base.1 + bonus1 + bonus2, base.2)

/-- Section 4 of `calculateScore`: technical SEO. -/
def scoreTechnical (d : SeoData) : ℤ × List String :=
  let xRobots := d.xRobots.getD ""
  let metaRobots := d.metaRobots.getD ""
  let noindex := strContainsSub (strLower xRobots) "noindex" ∨
    strContainsSub (strLower metaRobots) "noindex"
  let nofollow := strContainsSub (strLower xRobots) "nofollow" ∨
    strContainsSub (strLower metaRobots) "nofollow"
  ((if d.hasHttps then 0 else -10) + (if noindex then -15 else 0) +
     (if nofollow then -5 else 0) + (if d.favicon then 0 else -3) +
     (if d.hasOpenGraph then 0 else -4) + (if d.viewport then 0 else -3),
   (if d.hasHttps then [] else ["no HTTPS"]) ++
     (if noindex then ["page set to noindex"] else []) ++
     (if nofollow then ["page set to nofollow"] else []) ++
     (if d.favicon then [] else ["no favicon"]) ++
     (if d.hasOpenGraph then [] else ["no OpenGraph"]) ++
     (if d.viewport then [] else ["no viewport meta"]))

/-- Section 5 of `calculateScore`: content quality.  (The source also reads
`totalwordcount` and `wordcount` into local variables it never uses for
scoring; they are omitted here.) -/
def scoreContent (d : SeoData) : ℤ × List String :=
  let words := jsOrZ d.wordcountcontentonly (jsOrZ d.words 0)
  let wordPart : ℤ × List String :=
    if words < 150 then (-8, ["very low word count"])
    else if words < 300 then (-5, ["low word count"])
    else if words ≥ 800 then (2, [])
    else (0, [])
  let strongTags := jsOrZ d.strongTags 0
  let emphasisPart : ℤ × List String :=
    if strongTags = 0 ∧ words > 200 then (-2, ["no emphasis tags"]) else (0, [])
  (wordPart.1 + emphasisPart.1, wordPart.2 ++ emphasisPart.2)

/-- Section 6 of `calculateScore`: image alt-text penalty
(`Math.min(5, imagesWithoutAlt)`, issue label reports the full count). -/
def scoreImages (d : SeoData) : ℤ × List String :=
  let imagesWithoutAlt := jsOrZ d.imagesWithoutAlt 0
  if imagesWithoutAlt > 0 then
    (-(min 5 imagesWithoutAlt), [toString imagesWithoutAlt ++ " images without alt text"])
  else (0, [])

/-- Section 7 of `calculateScore`: advanced bonuses. -/
def scoreBonus (d : SeoData) : ℤ :=
  (if d.hasSchema ∨ d.hasJsonLd then 2 else 0) +
    (if d.canonicalUrl ≠ "" then 1 else 0) +
    (if d.hasHreflang then 1 else 0) +
    (if d.appleTouchIcon then 1 else 0)

/-- Section 8 of `calculateScore`: performance penalties. -/
def scorePerformance (d : SeoData) : ℤ × List String :=
  let jsFiles := jsOrZ d.javascriptFiles 0
  let cssFiles := jsOrZ d.cssFiles 0
  ((if jsFiles > 20 then -3 else 0) + (if cssFiles > 10 then -2 else 0),
   (if jsFiles > 20 then ["too many JS files"] else []) ++
     (if cssFiles > 10 then ["too many CSS files"] else []))

/-- The running score accumulated by `calculateScore` before the final
round-and-clamp (the sections of the source are independent additive deltas
applied to the initial value 100). -/
def rawScore (d : SeoData) : ℤ :=
  100 + (scoreTitle d).1 + (scoreDescription d).1 + (scoreHeadings d).1 +
    (scoreTechnical d).1 + (scoreContent d).1 + (scoreImages d).1 +
    scoreBonus d + (scorePerformance d).1

/-- The issue labels pushed by `calculateScore`, in source order. -/
def issuesOf (d : SeoData) : List String :=
  (scoreTitle d).2 ++ (scoreDescription d).2 ++ (scoreHeadings d).2 ++
    (scoreTechnical d).2 ++ (scoreContent d).2 ++ (scoreImages d).2 ++
    (scorePerformance d).2

/-- `SEOScorer.getGrade`. -/
def getGrade (score : ℤ) : String :=
  if score ≥ 90 then "A"
  else if score ≥ 80 then "B"
  else if score ≥ 70 then "C"
  else if score ≥ 60 then "D"
  else "F"

/-- `SEOScorer.getCategory`. -/
def getCategory (score : ℤ) : String :=
  if score ≥ 85 then "Excellent"
  else if score ≥ 70 then "Good"
  else if score ≥ 50 then "Needs Improvement"
  else "Poor"

/-- Result record of `SEOScorer.calculateScore` (the free-text `notes`
string is not modelled; no claim concerns it). -/
structure ScoreResult where
  seo_page_score : ℤ
  seo_grade : String
  seo_category : String
  seo_issues_count : ℕ
  issues : List String
deriving DecidableEq

/-- `SEOScorer.calculateScore`: the running score is an integer, so the
source's `Math.round` is the identity and the final score is the clamp of
`rawScore` to `[0, 100]`. -/
def calculateScore (d : SeoData) : ScoreResult :=
  let finalScore : ℤ := max 0 (min 100 (rawScore d))
  { seo_page_score := finalScore
    seo_grade := getGrade finalScore
    seo_category := getCategory finalScore
    seo_issues_count := (issuesOf d).length
    issues := issuesOf d }

/-! ## WHATWG URL model

The source relies on the runtime `URL` class.  `URLRec` models a parsed
URL; `parseAbs` covers absolute http/https URLs and `resolveURL` covers
relative resolution for fragment-only and path-absolute references.
Hrefs in other forms are treated as unresolvable (a throwing `new URL`
is caught and the link skipped in the source). -/

structure URLRec where
  scheme : String
  host : String
  pathname : String
  search : String
  fragment : Option String
deriving DecidableEq

/-- Serialization of a parsed URL, modelling the `href` property: a present
(even empty) fragment is rendered with its `#`. -/
def hrefStr (u : URLRec) : String :=
  u.scheme ++ "://" ++ u.host ++ u.pathname ++ u.search ++
    (match u.fragment with | none => "" | some f => "#" ++ f)

/-- The `hash` property: empty string when the fragment is absent or empty,
otherwise the fragment prefixed with `#`. -/
def hashProp (u : URLRec) : String :=
  match u.fragment with
  | none => ""
  | some f => if f = "" then "" else "#" ++ f

/-- Split the part of a URL after the host into pathname, search and
fragment components. -/
def splitPathSearchFrag (l : List Char) : String × String × Option String :=
  let beforeFrag := l.takeWhile (fun c => c ≠ '#')
  let fragPart := l.drop beforeFrag.length
  let fragment : Option String :=
    match fragPart with
    | [] => none
    | _ :: t => some (String.mk t)
  let pathChars := beforeFrag.takeWhile (fun c => c ≠ '?')
  let searchChars := beforeFrag.drop pathChars.length
  (String.mk pathChars, String.mk searchChars, fragment)

/-- Parse an absolute http/https URL.  The parser lower-cases the host and
normalizes an empty path to `/`, as the runtime `URL` class does. -/
def parseAbs (s : String) : Option URLRec :=
  let l := s.toList
  let parsed : Option (String × List Char) :=
    if ("https://".toList).isPrefixOf l then some ("https", l.drop 8)
    else if ("http://".toList).isPrefixOf l then some ("http", l.drop 7)
    else none
  match parsed with
  | none => none
  | some (scheme, rest) =>
    let hostChars := rest.takeWhile (fun c => ¬(c = '/' ∨ c = '?' ∨ c = '#'))
    if hostChars.isEmpty then none
    else
      let (pathname, search, fragment) := splitPathSearchFrag (rest.drop hostChars.length)
      some { scheme := scheme
             host := strLower (String.mk hostChars)
             pathname := if pathname = "" then "/" else pathname
             search := search
             fragment := fragment }

/-- Model of `new URL(href, base)`: absolute hrefs parse on their own;
a fragment-only href keeps the base's path and query; a path-absolute href
keeps the base's scheme and host.  Other forms are unresolvable in this
model. -/
def resolveURL (href base : String) : Option URLRec :=
  match parseAbs href with
  | some u => some u
  | none =>
    match parseAbs base with
    | none => none
    | some b =>
      match href.toList with
      | '#' :: frag => some { b with fragment := some (String.mk frag) }
      | '/' :: restPath =>
        let (pathname, search, fragment) := splitPathSearchFrag ('/' :: restPath)
        some { b with pathname := pathname, search := search, fragment := fragment }
      | _ => none

/-! ## Link classifier (SEOAnalyzer.analyzeLinks in the main actor file)

The network liveness check (`checkLinkStatuses`) is an external
collaborator that only annotates `statusCode`/`isBroken` on the collected
link records; it does not affect counts or averages and is not modelled. -/

/-- Social media / URL-shortener domains excluded from external links. -/
def socialMediaDomains : List String :=
  ["facebook.com", "fb.com", "m.facebook.com",
   "twitter.com", "t.co", "x.com",
   "instagram.com", "linkedin.com",
   "youtube.com", "youtu.be",
   "pinterest.com", "tiktok.com",
   "snapchat.com", "whatsapp.com",
   "telegram.org", "discord.com",
   "reddit.com", "tumblr.com",
   "flickr.com", "vimeo.com",
   "medium.com", "github.com",
   "bit.ly", "tinyurl.com", "goo.gl"]

/-- Social-domain test: exact host match or subdomain match. -/
def isSocialMediaHost (host : String) : Bool :=
  socialMediaDomains.any (fun d => host == d || strEndsWith host ("." ++ d))

/-- The `isHashOnlyLink` disjunction of the source, verbatim. -/
def isHashOnlyLink (href base : String) (url baseObj : URLRec) : Bool :=
  (hrefStr url == base ++ "#") ||
  (hrefStr url == base ++ "#content") ||
  (url.pathname == baseObj.pathname && !(hashProp url == "")) ||
  (url.pathname == "/" && !(hashProp url == "")) ||
  (strEndsWith url.pathname "/" && !(hashProp url == "") && url.pathname == baseObj.pathname) ||
  strEndsWith href "#"

/-- One `<a href=...>` element: its href attribute, its text content and
its target attribute. -/
structure Anchor where
  href : String
  text : String := ""
  target : Option String := none

/-- A collected link record (statusCode/isBroken are filled in later by the
liveness collaborator and start out null/false). -/
structure LinkData where
  url : String
  anchorText : String
  target : Option String
deriving DecidableEq

/-- Accumulator of the `links.each` loop. -/
structure LinkAcc where
  internalLinksCount : ℕ := 0
  externalLinksCount : ℕ := 0
  totalAnchorTextLength : ℕ := 0
  internalLinks : List LinkData := []
  externalLinks : List LinkData := []

/-- Body of the `links.each` callback: accumulate anchor text length, then
classify the link (hash-only links and social links are dropped, same-host
links are internal, the rest external). -/
def processAnchor (base : String) (acc : LinkAcc) (a : Anchor) : LinkAcc :=
  let anchorText := strTrim a.text
  let acc1 :=
    if anchorText ≠ "" then
      { acc with totalAnchorTextLength := acc.totalAnchorTextLength + anchorText.length }
    else acc
  if a.href = "" then acc1
  else
    match resolveURL a.href base, parseAbs base with
    | some url, some baseObj =>
      if isHashOnlyLink a.href base url baseObj then acc1
      else
        let linkData : LinkData := { url := hrefStr url, anchorText := anchorText, target := a.target }
        if url.host = baseObj.host then
          { acc1 with internalLinksCount := acc1.internalLinksCount + 1
                      internalLinks := acc1.internalLinks ++ [linkData] }
        else if isSocialMediaHost url.host then acc1
        else
          { acc1 with externalLinksCount := acc1.externalLinksCount + 1
                      externalLinks := acc1.externalLinks ++ [linkData] }
    | _, _ => acc1

/-- The four-way outcome of a classification attempt (plus `unresolved` for
hrefs the URL resolver rejects, which the source skips via its catch). -/
inductive LinkClass where
  | unresolved
  | fragment
  | internal
  | social
  | external
deriving DecidableEq

/-- Classification of a single anchor, following exactly the branch
structure of the `links.each` callback. -/
def classifyAnchor (base : String) (a : Anchor) : LinkClass :=
  if a.href = "" then .unresolved
  else
    match resolveURL a.href base, parseAbs base with
    | some url, some baseObj =>
      if isHashOnlyLink a.href base url baseObj then .fragment
      else if url.host = baseObj.host then .internal
      else if isSocialMediaHost url.host then .social
      else .external
    | _, _ => .unresolved

/-- Result of `analyzeLinks` (the broken-link fields depend on the network
collaborator and are not modelled). -/
structure LinkAnalysis where
  internalLinksCount : ℕ
  externalLinksCount : ℕ
  averageAnchorTextLength : ℤ
  internalLinks : List LinkData
  externalLinks : List LinkData

/-- `SEOAnalyzer.analyzeLinks`: fold the per-anchor callback over the
`a[href]` collection, then derive the average anchor text length
(`Math.round(total / links.length)`, 0 when there are no anchors). -/
def analyzeLinks (anchors : List Anchor) (base : String) : LinkAnalysis :=
  let acc := anchors.foldl (processAnchor base) {}
  { internalLinksCount := acc.internalLinksCount
    externalLinksCount := acc.externalLinksCount
    averageAnchorTextLength :=
      if anchors.length > 0 then
        jsRound ((acc.totalAnchorTextLength : ℚ) / (anchors.length : ℚ))
      else 0
    internalLinks := acc.internalLinks
    externalLinks := acc.externalLinks }

/-! ## URL Normalizer (src/url-normalizer.js)

`URLNormalizer.normalize` parses its input with the runtime `URL` class,
mutates the components, and serializes.  The embedding works on the parsed
component record `JSURL` (parsing/serialization being the runtime's job):
hash cleared, `utm_*` query parameters dropped, host lower-cased, repeated
path separators collapsed, one trailing path separator stripped unless the
path is the root. -/

structure JSURL where
  scheme : String
  host : String
  pathname : String
  params : List (String × String)
  fragment : Option String
deriving DecidableEq

/-- Case-insensitive test for the regex `/^utm_/i` on a parameter key. -/
def isUtmKey (k : String) : Bool := ("utm_".toList).isPrefixOf (lowerL k.toList)

/-- Collapse runs of `/` in a path, modelling `pathname.replace(/\/+/g, '/')`. -/
def collapseL : List Char → List Char
  | [] => []
  | [c] => [c]
  | c :: d :: rest =>
    if c = '/' ∧ d = '/' then collapseL (d :: rest) else c :: collapseL (d :: rest)

/-- Strip one trailing `/` from a non-root path, modelling
`if (pathname !== '/' && pathname.endsWith('/')) pathname.slice(0, -1)`. -/
def stripTrailingSlashL (l : List Char) : List Char :=
  if l ≠ ['/'] ∧ l.getLast? = some '/' then l.dropLast else l

namespace URLNormalizer

/-- `URLNormalizer.normalize`, on the parsed URL components. -/
def normalize (u : JSURL) : JSURL :=
  { scheme := u.scheme
    host := strLower u.host
    pathname := String.mk (stripTrailingSlashL (collapseL u.pathname.toList))
    params := u.params.filter (fun p => !(isUtmKey p.1))
    fragment := none }

end URLNormalizer

/-! ## Sitemap Tree Walker (src/sitemap-analyzer.js)

`countTotalUrlsInSitemaps` fetches a sitemap URL, classifies the document
(index with child locations, urlset with a URL count, or anything else),
and recurses over the children of an index.  Fetching is modelled by an
environment `env : String → Option SitemapDoc` (`none` is a failed fetch or
non-200 response); the classification of a successful response (the
content-type and marker sniffing plus `countUrlsInSitemap` /
`extractSitemapUrlsFromIndex`) is modelled by the `SitemapDoc` value.  The
mutable visited `Set` threads through the recursion as an explicit list and
is returned alongside the count. -/

inductive SitemapDoc where
  | index (children : List String)
  | urlset (urlCount : ℕ)
  | other
deriving DecidableEq

/-- `SitemapAnalyzer.countTotalUrlsInSitemaps`: zero at depth 0 or on an
already-visited URL, otherwise mark visited, fetch, and either take the
urlset's count or sum the children of an index at depth one less. -/
def countTotalUrlsInSitemaps (env : String → Option SitemapDoc) :
    ℕ → String → List String → ℕ × List String
  | 0, _, visited => (0, visited)
  | maxDepth + 1, sitemapUrl, visited =>
    if sitemapUrl ∈ visited then (0, visited)
    else
      let visited1 := sitemapUrl :: visited
      match env sitemapUrl with
      | some (.index children) =>
        children.foldl
          (fun acc nestedSitemapUrl =>
            let r := countTotalUrlsInSitemaps env maxDepth nestedSitemapUrl acc.2
            (acc.1 + r.1, r.2))
          (0, visited1)
      | some (.urlset n) => (n, visited1)
      | _ => (0, visited1)

/-- A sitemap index whose only child is itself. -/
def selfLoopEnv (s : String) : Option SitemapDoc :=
  if s = "https://example.com/sitemap.xml" then
    some (.index ["https://example.com/sitemap.xml"])
  else none

/-- URL of the k-th level of the deeply nested index chain. -/
def chainUrl (k : ℕ) : String := "https://example.com/s" ++ toString k ++ ".xml"

/-- A sitemap-index chain nested 15 levels deep whose leaf (level 15) is a
urlset with 42 URLs. -/
def chainEnv (s : String) : Option SitemapDoc :=
  if s = chainUrl 15 then some (.urlset 42)
  else
    match (List.range 15).find? (fun k => chainUrl k == s) with
    | some k => some (.index [chainUrl (k + 1)])
    | none => none

/-! ## Domain Aggregator (calculateDomainAnalysis in the main actor file)

The SSL-certificate probe and the sitemap summary merge are external
collaborators; the numeric aggregation over the page results is modelled.
JavaScript numeric fields that can be NaN (a division by zero propagates
through `* 100` and `Math.round`) are `Option ℚ` with `none` for a
non-finite value. -/

/-- JavaScript division producing `none` (non-finite: `0/0` is NaN) when the
denominator is zero. -/
def jsDiv (a b : ℚ) : Option ℚ := if b = 0 then none else some (a / b)

/-- Truthiness of a possibly-undefined number (`undefined` and 0 are falsy). -/
def jsTruthyNum (o : Option ℚ) : Bool :=
  match o with
  | some n => decide (n ≠ 0)
  | none => false

/-- The JavaScript comparison `x > 0` where `x` may be undefined
(`undefined > 0` is false). -/
def jsGtZero (o : Option ℚ) : Bool :=
  match o with
  | some n => decide (0 < n)
  | none => false

/-- `Math.round((count / totalPages) * 100)` as an `Option ℚ` (NaN when
`totalPages` is 0). -/
def pctField (count total : ℕ) : Option ℚ :=
  (jsDiv (count : ℚ) (total : ℚ)).map (fun q => (jsRound (q * 100) : ℚ))

/-- `Math.round(sum / totalPages)` as an `Option ℚ` (NaN when `totalPages`
is 0). -/
def avgField (sum : ℚ) (total : ℕ) : Option ℚ :=
  (jsDiv sum (total : ℚ)).map (fun q => (jsRound q : ℚ))

/-- Truthiness flags of a page's `openGraphData` sub-object. -/
structure OpenGraphData where
  title : Bool := false
  description : Bool := false
  image : Bool := false
  imagesNonempty : Bool := false

/-- One page result record, restricted to the fields
`calculateDomainAnalysis` reads. -/
structure PageResult where
  url : String := ""
  seo_page_score : Option ℚ := none
  h1Count : Option ℚ := none
  titleLength : Option ℚ := none
  descriptionLength : Option ℚ := none
  words : Option ℚ := none
  internalLinksCount : Option ℚ := none
  error : Bool := false
  statusCode : Option ℚ := none
  hasOpenGraph : Bool := false
  openGraphData : Option OpenGraphData := none

/-- The numeric and grade fields of the domain analysis record (the SSL and
sitemap sub-objects come from external collaborators and are omitted). -/
structure DomainAnalysis where
  domain_name : String
  total_pages_analyzed : ℕ
  average_seo_score : ℚ
  overall_grade : String
  pages_with_h1 : ℕ
  pages_with_h1_percentage : Option ℚ
  pages_with_meta_description : ℕ
  pages_with_meta_description_percentage : Option ℚ
  pages_with_errors : ℕ
  pages_with_errors_percentage : Option ℚ
  average_title_length : Option ℚ
  average_description_length : Option ℚ
  average_words_per_page : Option ℚ
  average_internal_links : Option ℚ
  pages_with_successful_status : ℕ
  pages_with_successful_status_percentage : Option ℚ
  pages_with_redirect_status : ℕ
  pages_with_redirect_status_percentage : Option ℚ
  pages_with_error_status : ℕ
  pages_with_error_status_percentage : Option ℚ
  pages_with_opengraph : ℕ
  pages_with_opengraph_percentage : Option ℚ
  pages_with_opengraph_title : ℕ
  pages_with_opengraph_title_percentage : Option ℚ
  pages_with_opengraph_description : ℕ
  pages_with_opengraph_description_percentage : Option ℚ
  pages_with_opengraph_image : ℕ
  pages_with_opengraph_image_percentage : Option ℚ

/-- `calculateDomainAnalysis`: only the average SEO score guards against an
empty result list; every percentage and per-page average divides by
`results.length` unconditionally. -/
def calculateDomainAnalysis (results : List PageResult) : DomainAnalysis :=
  let validResults := results.filter (fun r => r.seo_page_score.isSome)
  let averageScore : ℚ :=
    if validResults.length > 0 then
      (validResults.map (fun r => r.seo_page_score.getD 0)).sum / (validResults.length : ℚ)
    else 0
  let overallGrade :=
    if averageScore ≥ 90 then "A"
    else if averageScore ≥ 80 then "B"
    else if averageScore ≥ 70 then "C"
    else if averageScore ≥ 60 then "D"
    else "F"
  let firstUrl := (results.head?.map PageResult.url).getD ""
  let domain := if firstUrl = "" then "" else ((parseAbs firstUrl).map URLRec.host).getD ""
  let totalPages := results.length
  let pagesWithH1 := (results.filter (fun r => jsGtZero r.h1Count)).length
  let pagesWithMetaDesc := (results.filter (fun r => jsGtZero r.descriptionLength)).length
  let pagesWithErrors := (results.filter (fun r => r.error)).length
  let statusCodes :=
    (results.filter (fun r => jsTruthyNum r.statusCode)).map (fun r => r.statusCode.getD 0)
  let successfulPages := (statusCodes.filter (fun code => decide (200 ≤ code ∧ code < 300))).length
  let redirectPages := (statusCodes.filter (fun code => decide (300 ≤ code ∧ code < 400))).length
  let errorPages := (statusCodes.filter (fun code => decide (400 ≤ code))).length
  let pagesWithOpenGraph := (results.filter (fun r => r.hasOpenGraph)).length
  let pagesWithOpenGraphTitle :=
    (results.filter (fun r => (r.openGraphData.map OpenGraphData.title).getD false)).length
  let pagesWithOpenGraphDescription :=
    (results.filter (fun r => (r.openGraphData.map OpenGraphData.description).getD false)).length
  let pagesWithOpenGraphImage :=
    (results.filter (fun r =>
      (r.openGraphData.map (fun og => og.image || og.imagesNonempty)).getD false)).length
  { domain_name := domain
    total_pages_analyzed := totalPages
    average_seo_score := (jsRound (averageScore * 100) : ℚ) / 100
    overall_grade := overallGrade
    pages_with_h1 := pagesWithH1
    pages_with_h1_percentage := pctField pagesWithH1 totalPages
    pages_with_meta_description := pagesWithMetaDesc
    pages_with_meta_description_percentage := pctField pagesWithMetaDesc totalPages
    pages_with_errors := pagesWithErrors
    pages_with_errors_percentage := pctField pagesWithErrors totalPages
    average_title_length := avgField ((results.map (fun r => r.titleLength.getD 0)).sum) totalPages
    average_description_length :=
      avgField ((results.map (fun r => r.descriptionLength.getD 0)).sum) totalPages
    average_words_per_page := avgField ((results.map (fun r => r.words.getD 0)).sum) totalPages
    average_internal_links :=
      avgField ((results.map (fun r => r.internalLinksCount.getD 0)).sum) totalPages
    pages_with_successful_status := successfulPages
    pages_with_successful_status_percentage := pctField successfulPages totalPages
    pages_with_redirect_status := redirectPages
    pages_with_redirect_status_percentage := pctField redirectPages totalPages
    pages_with_error_status := errorPages
    pages_with_error_status_percentage := pctField errorPages totalPages
    pages_with_opengraph := pagesWithOpenGraph
    pages_with_opengraph_percentage := pctField pagesWithOpenGraph totalPages
    pages_with_opengraph_title := pagesWithOpenGraphTitle
    pages_with_opengraph_title_percentage := pctField pagesWithOpenGraphTitle totalPages
    pages_with_opengraph_description := pagesWithOpenGraphDescription
    pages_with_opengraph_description_percentage :=
      pctField pagesWithOpenGraphDescription totalPages
    pages_with_opengraph_image := pagesWithOpenGraphImage
    pages_with_opengraph_image_percentage := pctField pagesWithOpenGraphImage totalPages }

/-! ## Concrete inputs and auxiliary predicates used by the theorems -/

/-- Predicate: no two adjacent path separators. -/
def noDblSlash : List Char → Bool
  | [] => true
  | [_] => true
  | c :: d :: rest => !(c == '/' && d == '/') && noDblSlash (d :: rest)

/-- Rank of a grade letter under the ordering F < D < C < B < A. -/
def gradeRank (g : String) : ℕ :=
  if g = "A" then 4 else if g = "B" then 3 else if g = "C" then 2
  else if g = "D" then 1 else 0

/-- Rank of a category under Poor < Needs Improvement < Good < Excellent. -/
def categoryRank (c : String) : ℕ :=
  if c = "Excellent" then 3 else if c = "Good" then 2
  else if c = "Needs Improvement" then 1 else 0

/-- The end-to-end scenario feature record: title of length 5, no meta
description, one H1 (fallback heading path), HTTPS, no favicon, no
OpenGraph, viewport, 100 content-only words, no emphasis tags, no images. -/
def d58 : SeoData :=
  { title := "abcde", titleLength := some 5,
    h1Count := some 1, h2Count := some 0, h3Count := some 0,
    hasHttps := true, viewport := true,
    wordcountcontentonly := some 100, strongTags := some 0,
    imagesWithoutAlt := some 0 }

/-- A feature record with 10 images missing alt text (all else default). -/
def d10images : SeoData := { imagesWithoutAlt := some 10 }

/-- The link-classifier scenario anchors. -/
def scenarioAnchors : List Anchor :=
  [{ href := "#" },
   { href := "https://samehost.com/#section" },
   { href := "https://samehost.com/other" },
   { href := "https://facebook.com/page" },
   { href := "https://other.com" }]

/-- Parsed form of `https://a.com/?utm_source=x&keep=1`. -/
def utmExample : JSURL :=
  { scheme := "https", host := "a.com", pathname := "/",
    params := [("utm_source", "x"), ("keep", "1")], fragment := none }

/-! ## Theorems -/

theorem gradeRank_getGrade (s : ℤ) :
    gradeRank (getGrade s) =
      if 90 ≤ s then 4 else if 80 ≤ s then 3 else if 70 ≤ s then 2
      else if 60 ≤ s then 1 else 0 := by
  unfold getGrade gradeRank
  split_ifs <;> simp_all

theorem categoryRank_getCategory (s : ℤ) :
    categoryRank (getCategory s) =
      if 85 ≤ s then 3 else if 70 ≤ s then 2 else if 50 ≤ s then 1 else 0 := by
  unfold getCategory categoryRank
  split_ifs <;> simp_all

/-- C1: for every feature record, the final score is an integer in [0,100],
the grade and category in the result are those of the final score, and
`getGrade` / `getCategory` are determined exactly by the stated thresholds,
including at the boundary scores 90/89/80/79/60/59 and 85/84/70/69/50/49. -/
theorem c1_score_bounds_and_thresholds :
    (∀ d : SeoData,
      0 ≤ (calculateScore d).seo_page_score ∧
      (calculateScore d).seo_page_score ≤ 100 ∧
      (calculateScore d).seo_grade = getGrade (calculateScore d).seo_page_score ∧
      (calculateScore d).seo_category = getCategory (calculateScore d).seo_page_score) ∧
    (∀ s : ℤ,
      (getGrade s = "A" ↔ 90 ≤ s) ∧
      (getGrade s = "B" ↔ 80 ≤ s ∧ s < 90) ∧
      (getGrade s = "C" ↔ 70 ≤ s ∧ s < 80) ∧
      (getGrade s = "D" ↔ 60 ≤ s ∧ s < 70) ∧
      (getGrade s = "F" ↔ s < 60)) ∧
    (∀ s : ℤ,
      (getCategory s = "Excellent" ↔ 85 ≤ s) ∧
      (getCategory s = "Good" ↔ 70 ≤ s ∧ s < 85) ∧
      (getCategory s = "Needs Improvement" ↔ 50 ≤ s ∧ s < 70) ∧
      (getCategory s = "Poor" ↔ s < 50)) ∧
    getGrade 90 = "A" ∧ getGrade 89 = "B" ∧ getGrade 80 = "B" ∧ getGrade 79 = "C" ∧
    getGrade 60 = "D" ∧ getGrade 59 = "F" ∧
    getCategory 85 = "Excellent" ∧ getCategory 84 = "Good" ∧ getCategory 70 = "Good" ∧
    getCategory 69 = "Needs Improvement" ∧ getCategory 50 = "Needs Improvement" ∧
    getCategory 49 = "Poor" := by
  refine ⟨fun d => ⟨le_max_left 0 _, max_le (by norm_num) (min_le_left _ _), rfl, rfl⟩,
    fun s => ?_, fun s => ?_, ?_⟩
  case refine_3 => decide
  · unfold getGrade
    split_ifs <;>
      refine ⟨?_, ?_, ?_, ?_, ?_⟩ <;> constructor <;> intro h <;>
      first
        | rfl
        | omega
        | (exact absurd h (by decide))
  · unfold getCategory
    split_ifs <;>
      refine ⟨?_, ?_, ?_, ?_⟩ <;> constructor <;> intro h <;>
      first
        | rfl
        | omega
        | (exact absurd h (by decide))

/-- C10: grade and category are monotone in the score, under the orderings
F < D < C < B < A and Poor < Needs Improvement < Good < Excellent. -/
theorem c10_grade_category_monotone (s1 s2 : ℤ) (h : s1 ≤ s2) :
    gradeRank (getGrade s1) ≤ gradeRank (getGrade s2) ∧
    categoryRank (getCategory s1) ≤ categoryRank (getCategory s2) := by
  rw [gradeRank_getGrade, gradeRank_getGrade, categoryRank_getCategory,
    categoryRank_getCategory]
  constructor <;> split_ifs <;> omega

/-- C10 witness: instantiation at the concrete scores 59 and 90. -/
theorem c10_witness :
    (59 : ℤ) ≤ 90 ∧
    gradeRank (getGrade 59) ≤ gradeRank (getGrade 90) ∧
    categoryRank (getCategory 59) ≤ categoryRank (getCategory 90) :=
  ⟨by decide, c10_grade_category_monotone 59 90 (by decide)⟩

/-- C3 counterexample: on the stated scenario record the score is 58 as
claimed, but the grade the code assigns is F (not D) and the category is
Needs Improvement (not Poor) — by the scorer's own thresholds, 58 < 60
gives F and 50 ≤ 58 < 70 gives Needs Improvement. -/
theorem c3_counterexample :
    (calculateScore d58).seo_page_score = 58 ∧
    (calculateScore d58).seo_grade = "F" ∧
    (calculateScore d58).seo_category = "Needs Improvement" ∧
    (((calculateScore d58).seo_grade == "D") = false) ∧
    (((calculateScore d58).seo_category == "Poor") = false) := by
  decide

/-- C3 amended: the scenario record scores 100 − 15 − 12 − 3 − 4 − 8 = 58,
with grade F and category Needs Improvement, and the five expected issue
labels are flagged. -/
theorem c3_amended_scenario :
    (calculateScore d58).seo_page_score = 58 ∧
    (calculateScore d58).seo_grade = "F" ∧
    (calculateScore d58).seo_category = "Needs Improvement" ∧
    (calculateScore d58).issues =
      ["missing/short title", "missing/short meta description", "no favicon",
       "no OpenGraph", "very low word count"] := by
  decide

/-- C2 counterexample: on the empty page list every percentage field and
every per-page average field of the domain analysis is NaN (modelled
`none`), not 0 — the divisions by `results.length` are unguarded. -/
theorem c2_counterexample :
    (calculateDomainAnalysis []).pages_with_h1_percentage = none ∧
    (calculateDomainAnalysis []).average_title_length = none ∧
    (calculateDomainAnalysis []).pages_with_successful_status_percentage = none ∧
    (((calculateDomainAnalysis []).pages_with_h1_percentage == some 0) = false) := by
  decide

/-- C2 amended: on the empty page list the aggregator returns (without
throwing) average score 0 and grade F, but every percentage field and every
per-page averaged numeric field is NaN (modelled `none`) rather than 0. -/
theorem c2_amended_empty_aggregation :
    (calculateDomainAnalysis []).average_seo_score = 0 ∧
    (calculateDomainAnalysis []).overall_grade = "F" ∧
    (calculateDomainAnalysis []).total_pages_analyzed = 0 ∧
    (calculateDomainAnalysis []).pages_with_h1_percentage = none ∧
    (calculateDomainAnalysis []).pages_with_meta_description_percentage = none ∧
    (calculateDomainAnalysis []).pages_with_errors_percentage = none ∧
    (calculateDomainAnalysis []).average_title_length = none ∧
    (calculateDomainAnalysis []).average_description_length = none ∧
    (calculateDomainAnalysis []).average_words_per_page = none ∧
    (calculateDomainAnalysis []).average_internal_links = none ∧
    (calculateDomainAnalysis []).pages_with_successful_status_percentage = none ∧
    (calculateDomainAnalysis []).pages_with_redirect_status_percentage = none ∧
    (calculateDomainAnalysis []).pages_with_error_status_percentage = none ∧
    (calculateDomainAnalysis []).pages_with_opengraph_percentage = none ∧
    (calculateDomainAnalysis []).pages_with_opengraph_title_percentage = none ∧
    (calculateDomainAnalysis []).pages_with_opengraph_description_percentage = none ∧
    (calculateDomainAnalysis []).pages_with_opengraph_image_percentage = none := by
  refine ⟨?_, ?_⟩
  · show ((jsRound ((if (0:ℕ) > 0 then (0:ℚ) else 0) * 100) : ℚ) / 100) = 0
    norm_num [jsRound]
  · decide

/-- C5: the sitemap walk is a total function and (first conjunct) an
already-visited URL contributes 0 and leaves the visited set unchanged at
any depth, so a self-referencing index terminates with count 0 (second
conjunct); the depth bound stops the walk: on a chain of indexes nested 15
levels deep whose leaf urlset holds 42 URLs, depth 10 returns 0 without
error, while a depth bound above the nesting reaches the leaf's 42. -/
theorem c5_sitemap_walker_termination :
    (∀ (env : String → Option SitemapDoc) (maxDepth : ℕ) (url : String)
      (visited : List String), url ∈ visited →
        countTotalUrlsInSitemaps env maxDepth url visited = (0, visited)) ∧
    countTotalUrlsInSitemaps selfLoopEnv 10 "https://example.com/sitemap.xml" [] =
      (0, ["https://example.com/sitemap.xml"]) ∧
    (countTotalUrlsInSitemaps chainEnv 10 (chainUrl 0) []).1 = 0 ∧
    (countTotalUrlsInSitemaps chainEnv 16 (chainUrl 0) []).1 = 42 := by
  refine ⟨fun env maxDepth url visited h => ?_, by decide, by decide, by decide⟩
  cases maxDepth with
  | zero => rfl
  | succ n => simp [countTotalUrlsInSitemaps, h]

/-- C5 witness: the visited-set cutoff instantiated at a concrete call. -/
theorem c5_witness :
    "https://example.com/sitemap.xml" ∈ ["https://example.com/sitemap.xml"] ∧
    countTotalUrlsInSitemaps selfLoopEnv 7 "https://example.com/sitemap.xml"
        ["https://example.com/sitemap.xml"] =
      (0, ["https://example.com/sitemap.xml"]) :=
  ⟨by decide,
   c5_sitemap_walker_termination.1 selfLoopEnv 7 "https://example.com/sitemap.xml"
     ["https://example.com/sitemap.xml"] (by decide)⟩

/-- C7: when n > 0 images are missing alt text the running score drops by
exactly min(n, 5) relative to the same record with no such images — never
more than 5 — while the emitted issue label still reports the full count n. -/
theorem c7_image_penalty_cap (d : SeoData) (h : 0 < jsOrZ d.imagesWithoutAlt 0) :
    rawScore d = rawScore { d with imagesWithoutAlt := some 0 } -
      min (jsOrZ d.imagesWithoutAlt 0) 5 ∧
    min (jsOrZ d.imagesWithoutAlt 0) 5 ≤ 5 ∧
    (toString (jsOrZ d.imagesWithoutAlt 0) ++ " images without alt text") ∈ issuesOf d := by
  have himg : scoreImages d =
      (-(min 5 (jsOrZ d.imagesWithoutAlt 0)),
       [toString (jsOrZ d.imagesWithoutAlt 0) ++ " images without alt text"]) := by
    unfold scoreImages
    rw [if_pos h]
  have himg0 : scoreImages { d with imagesWithoutAlt := some 0 } = (0, []) := rfl
  have e1 : scoreTitle { d with imagesWithoutAlt := some 0 } = scoreTitle d := rfl
  have e2 : scoreDescription { d with imagesWithoutAlt := some 0 } = scoreDescription d := rfl
  have e3 : scoreHeadings { d with imagesWithoutAlt := some 0 } = scoreHeadings d := rfl
  have e4 : scoreTechnical { d with imagesWithoutAlt := some 0 } = scoreTechnical d := rfl
  have e5 : scoreContent { d with imagesWithoutAlt := some 0 } = scoreContent d := rfl
  have e6 : scoreBonus { d with imagesWithoutAlt := some 0 } = scoreBonus d := rfl
  have e7 : scorePerformance { d with imagesWithoutAlt := some 0 } = scorePerformance d := rfl
  refine ⟨?_, by omega, ?_⟩
  · unfold rawScore
    rw [himg, himg0, e1, e2, e3, e4, e5, e6, e7]
    simp
    omega
  · unfold issuesOf
    rw [himg]
    simp

/-- C7 witness: 10 images missing alt text subtract exactly
min(10, 5) = 5 and the issue label reports 10. -/
theorem c7_witness :
    0 < jsOrZ d10images.imagesWithoutAlt 0 ∧
    (rawScore d10images = rawScore { d10images with imagesWithoutAlt := some 0 } -
        min (jsOrZ d10images.imagesWithoutAlt 0) 5 ∧
      min (jsOrZ d10images.imagesWithoutAlt 0) 5 ≤ 5 ∧
      (toString (jsOrZ d10images.imagesWithoutAlt 0) ++ " images without alt text") ∈
        issuesOf d10images) ∧
    min (jsOrZ d10images.imagesWithoutAlt 0) 5 = 5 ∧
    toString (jsOrZ d10images.imagesWithoutAlt 0) ++ " images without alt text" =
      "10 images without alt text" :=
  ⟨by decide, c7_image_penalty_cap d10images (by decide), by decide, by decide⟩

theorem processAnchor_internalLinksCount (base : String) (acc : LinkAcc) (a : Anchor) :
    (processAnchor base acc a).internalLinksCount =
      acc.internalLinksCount +
        (if classifyAnchor base a = .internal then 1 else 0) := by
  unfold processAnchor classifyAnchor
  by_cases h0 : a.href = ""
  · simp only [if_pos h0]
    split <;> rfl
  · simp only [if_neg h0]
    cases hr : resolveURL a.href base with
    | none =>
      cases hb : parseAbs base with
      | none => simp only []; split <;> rfl
      | some baseObj => simp only []; split <;> rfl
    | some url =>
      cases hb : parseAbs base with
      | none => simp only []; split <;> rfl
      | some baseObj =>
        simp only []
        by_cases hh : isHashOnlyLink a.href base url baseObj
        · simp only [if_pos hh]
          split <;> rfl
        · simp only [if_neg hh]
          by_cases hhost : url.host = baseObj.host
          · simp only [if_pos hhost]
            split <;> rfl
          · simp only [if_neg hhost]
            by_cases hsoc : isSocialMediaHost url.host
            · simp only [if_pos hsoc]
              split <;> rfl
            · simp only [if_neg hsoc]
              split <;> rfl

theorem processAnchor_externalLinksCount (base : String) (acc : LinkAcc) (a : Anchor) :
    (processAnchor base acc a).externalLinksCount =
      acc.externalLinksCount +
        (if classifyAnchor base a = .external then 1 else 0) := by
  unfold processAnchor classifyAnchor
  by_cases h0 : a.href = ""
  · simp only [if_pos h0]
    split <;> rfl
  · simp only [if_neg h0]
    cases hr : resolveURL a.href base with
    | none =>
      cases hb : parseAbs base with
      | none => simp only []; split <;> rfl
      | some baseObj => simp only []; split <;> rfl
    | some url =>
      cases hb : parseAbs base with
      | none => simp only []; split <;> rfl
      | some baseObj =>
        simp only []
        by_cases hh : isHashOnlyLink a.href base url baseObj
        · simp only [if_pos hh]
          split <;> rfl
        · simp only [if_neg hh]
          by_cases hhost : url.host = baseObj.host
          · simp only [if_pos hhost]
            split <;> rfl
          · simp only [if_neg hhost]
            by_cases hsoc : isSocialMediaHost url.host
            · simp only [if_pos hsoc]
              split <;> rfl
            · simp only [if_neg hsoc]
              split <;> rfl

theorem processAnchor_totalAnchorTextLength (base : String) (acc : LinkAcc) (a : Anchor) :
    (processAnchor base acc a).totalAnchorTextLength =
      acc.totalAnchorTextLength +
        (if strTrim a.text ≠ "" then (strTrim a.text).length else 0) := by
  have key : ∀ acc1 : LinkAcc,
      (if a.href = "" then acc1
       else
        match resolveURL a.href base, parseAbs base with
        | some url, some baseObj =>
          if isHashOnlyLink a.href base url baseObj then acc1
          else
            let linkData : LinkData :=
              { url := hrefStr url, anchorText := strTrim a.text, target := a.target }
            if url.host = baseObj.host then
              { acc1 with internalLinksCount := acc1.internalLinksCount + 1
                          internalLinks := acc1.internalLinks ++ [linkData] }
            else if isSocialMediaHost url.host then acc1
            else
              { acc1 with externalLinksCount := acc1.externalLinksCount + 1
                          externalLinks := acc1.externalLinks ++ [linkData] }
        | _, _ => acc1).totalAnchorTextLength = acc1.totalAnchorTextLength := by
    intro acc1
    by_cases h0 : a.href = ""
    · simp only [if_pos h0]
    · simp only [if_neg h0]
      cases hr : resolveURL a.href base with
      | none =>
        cases hb : parseAbs base with
        | none => simp only []
        | some baseObj => simp only []
      | some url =>
        cases hb : parseAbs base with
        | none => simp only []
        | some baseObj =>
          simp only []
          by_cases hh : isHashOnlyLink a.href base url baseObj
          · simp only [if_pos hh]
          · simp only [if_neg hh]
            by_cases hhost : url.host = baseObj.host
            · simp only [if_pos hhost]
            · simp only [if_neg hhost]
              by_cases hsoc : isSocialMediaHost url.host
              · simp only [if_pos hsoc]
              · simp only [if_neg hsoc]
  unfold processAnchor
  rw [key]
  split <;> rfl

theorem foldl_processAnchor_internal (base : String) (anchors : List Anchor) :
    ∀ acc : LinkAcc,
      (anchors.foldl (processAnchor base) acc).internalLinksCount =
        acc.internalLinksCount +
          anchors.countP (fun a => classifyAnchor base a == .internal) := by
  induction anchors with
  | nil => intro acc; simp
  | cons a t ih =>
    intro acc
    simp only [List.foldl_cons, List.countP_cons]
    rw [ih, processAnchor_internalLinksCount]
    by_cases h : classifyAnchor base a = .internal <;> simp [h] <;> omega

theorem foldl_processAnchor_external (base : String) (anchors : List Anchor) :
    ∀ acc : LinkAcc,
      (anchors.foldl (processAnchor base) acc).externalLinksCount =
        acc.externalLinksCount +
          anchors.countP (fun a => classifyAnchor base a == .external) := by
  induction anchors with
  | nil => intro acc; simp
  | cons a t ih =>
    intro acc
    simp only [List.foldl_cons, List.countP_cons]
    rw [ih, processAnchor_externalLinksCount]
    by_cases h : classifyAnchor base a = .external <;> simp [h] <;> omega

theorem foldl_processAnchor_total (base : String) (anchors : List Anchor) :
    ∀ acc : LinkAcc,
      (anchors.foldl (processAnchor base) acc).totalAnchorTextLength =
        acc.totalAnchorTextLength +
          ((anchors.filter (fun a => strTrim a.text != "")).map
            (fun a => (strTrim a.text).length)).sum := by
  induction anchors with
  | nil => intro acc; simp
  | cons a t ih =>
    intro acc
    simp only [List.foldl_cons, List.filter_cons]
    rw [ih, processAnchor_totalAnchorTextLength]
    by_cases h : strTrim a.text ≠ "" <;> simp [h] <;> omega

theorem countP_classify_partition (base : String) (anchors : List Anchor) :
    anchors.countP (fun a => classifyAnchor base a == .fragment) +
      anchors.countP (fun a => classifyAnchor base a == .internal) +
      anchors.countP (fun a => classifyAnchor base a == .social) +
      anchors.countP (fun a => classifyAnchor base a == .external) +
      anchors.countP (fun a => classifyAnchor base a == .unresolved) =
      anchors.length := by
  induction anchors with
  | nil => simp
  | cons a t ih =>
    simp only [List.countP_cons, List.length_cons]
    cases h : classifyAnchor base a <;> simp [h] <;> omega

/-- C4: every anchor is assigned exactly one classification (unresolvable
hrefs being skipped), the internal/external counters of `analyzeLinks` count
exactly the anchors classified internal resp. external, the five
classification counts partition the anchor list, and on the stated scenario
(base `https://samehost.com/`) the classes are fragment, fragment, internal,
social, external, giving internalCount = 1 and externalCount = 1. -/
theorem c4_link_classifier_partition :
    (∀ (anchors : List Anchor) (base : String),
      (analyzeLinks anchors base).internalLinksCount =
        anchors.countP (fun a => classifyAnchor base a == .internal) ∧
      (analyzeLinks anchors base).externalLinksCount =
        anchors.countP (fun a => classifyAnchor base a == .external) ∧
      anchors.countP (fun a => classifyAnchor base a == .fragment) +
        anchors.countP (fun a => classifyAnchor base a == .internal) +
        anchors.countP (fun a => classifyAnchor base a == .social) +
        anchors.countP (fun a => classifyAnchor base a == .external) +
        anchors.countP (fun a => classifyAnchor base a == .unresolved) =
        anchors.length) ∧
    (analyzeLinks scenarioAnchors "https://samehost.com/").internalLinksCount = 1 ∧
    (analyzeLinks scenarioAnchors "https://samehost.com/").externalLinksCount = 1 ∧
    scenarioAnchors.map (classifyAnchor "https://samehost.com/") =
      [.fragment, .fragment, .internal, .social, .external] := by
  refine ⟨fun anchors base => ⟨?_, ?_, countP_classify_partition base anchors⟩,
    by decide, by decide, by decide⟩
  · show (anchors.foldl (processAnchor base) {}).internalLinksCount = _
    rw [foldl_processAnchor_internal base anchors {}]
    simp
  · show (anchors.foldl (processAnchor base) {}).externalLinksCount = _
    rw [foldl_processAnchor_external base anchors {}]
    simp

/-- C6: the average anchor text length is the sum of the trimmed text
lengths over every anchor with text — including anchors discarded as
fragment links — divided by the total anchor count and rounded to the
nearest integer, and 0 when there are no anchors. -/
theorem c6_average_anchor_text_length (anchors : List Anchor) (base : String) :
    (analyzeLinks anchors base).averageAnchorTextLength =
      if anchors.length = 0 then 0
      else
        jsRound
          (((((anchors.filter (fun a => strTrim a.text != "")).map
                (fun a => (strTrim a.text).length)).sum : ℕ) : ℚ) /
            (anchors.length : ℚ)) := by
  show (if anchors.length > 0 then
      jsRound
        (((anchors.foldl (processAnchor base) {}).totalAnchorTextLength : ℚ) /
          (anchors.length : ℚ))
    else 0) = _
  rw [foldl_processAnchor_total base anchors {}]
  by_cases h : anchors.length = 0 <;> simp [h]

theorem charToLower_idem (c : Char) : c.toLower.toLower = c.toLower := by
  unfold Char.toLower
  by_cases h : c.toNat ≥ 65 ∧ c.toNat ≤ 90
  · rw [if_pos h]
    have hv : (c.toNat + 32).isValidChar := Or.inl (by omega)
    have ht : (Char.ofNat (c.toNat + 32)).toNat = c.toNat + 32 := by
      unfold Char.ofNat
      rw [dif_pos hv]
      simp [Char.ofNatAux, Char.toNat, UInt32.toNat]
    rw [if_neg]
    omega
  · rw [if_neg h, if_neg h]

theorem collapseL_cons : ∀ (d : Char) (rest : List Char),
    ∃ t, collapseL (d :: rest) = d :: t
  | d, [] => ⟨[], rfl⟩
  | d, e :: rest => by
    by_cases h : d = '/' ∧ e = '/'
    · obtain ⟨t, ht⟩ := collapseL_cons e rest
      refine ⟨t, ?_⟩
      obtain ⟨h1, h2⟩ := h
      subst h1
      subst h2
      simp only [collapseL, if_pos (And.intro rfl rfl)]
      exact ht
    · exact ⟨collapseL (e :: rest), by simp only [collapseL, if_neg h]⟩

theorem noDbl_collapseL : ∀ l : List Char, noDblSlash (collapseL l) = true
  | [] => rfl
  | [c] => rfl
  | c :: d :: rest => by
    by_cases h : c = '/' ∧ d = '/'
    · simp only [collapseL, if_pos h]
      exact noDbl_collapseL (d :: rest)
    · simp only [collapseL, if_neg h]
      obtain ⟨t, ht⟩ := collapseL_cons d rest
      rw [ht]
      have h2 := noDbl_collapseL (d :: rest)
      rw [ht] at h2
      simp only [noDblSlash, Bool.and_eq_true, Bool.not_eq_true']
      constructor
      · by_cases hc : c = '/' <;> by_cases hd : d = '/' <;> simp [hc, hd] <;> tauto
      · exact h2

theorem collapseL_eq_of_noDbl : ∀ l : List Char, noDblSlash l = true → collapseL l = l
  | [], _ => rfl
  | [c], _ => rfl
  | c :: d :: rest, h => by
    simp only [noDblSlash, Bool.and_eq_true, Bool.not_eq_true'] at h
    obtain ⟨h1, h2⟩ := h
    have hnd : ¬(c = '/' ∧ d = '/') := by
      intro hcd
      simp [hcd.1, hcd.2] at h1
    simp only [collapseL, if_neg hnd]
    rw [collapseL_eq_of_noDbl (d :: rest) h2]

theorem noDbl_dropLast : ∀ l : List Char, noDblSlash l = true →
    noDblSlash l.dropLast = true
  | [], _ => rfl
  | [_], _ => rfl
  | c :: d :: rest, h => by
    simp only [noDblSlash, Bool.and_eq_true] at h
    cases rest with
    | nil => rfl
    | cons e rest' =>
      have ih := noDbl_dropLast (d :: e :: rest') h.2
      simp only [List.dropLast_cons₂, noDblSlash, Bool.and_eq_true]
      refine ⟨h.1, ?_⟩
      simpa [List.dropLast_cons₂] using ih

theorem noDbl_no_trailing_pair : ∀ l : List Char, noDblSlash l = true →
    l.getLast? = some '/' → l.dropLast.getLast? = some '/' → False
  | [], _, hlast, _ => by simp at hlast
  | [a], _, _, hd => by simp at hd
  | a :: b :: rest, h, hlast, hd => by
    simp only [noDblSlash, Bool.and_eq_true, Bool.not_eq_true'] at h
    cases rest with
    | nil =>
      simp at hlast hd
      simp [hlast, hd] at h
    | cons e rest' =>
      have hlast' : (b :: e :: rest').getLast? = some '/' := by
        simpa using hlast
      have hd' : (b :: e :: rest').dropLast.getLast? = some '/' := by
        simp only [List.dropLast_cons₂] at hd ⊢
        simpa using hd
      exact noDbl_no_trailing_pair (b :: e :: rest') h.2 hlast' hd'

theorem filter_collapseL : ∀ l : List Char,
    (collapseL l).filter (fun c => !(c == '/')) = l.filter (fun c => !(c == '/'))
  | [] => rfl
  | [c] => rfl
  | c :: d :: rest => by
    by_cases h : c = '/' ∧ d = '/'
    · simp only [collapseL, if_pos h]
      rw [filter_collapseL (d :: rest)]
      obtain ⟨h1, _⟩ := h
      subst h1
      simp [List.filter_cons]
    · simp only [collapseL, if_neg h]
      rw [List.filter_cons, List.filter_cons, filter_collapseL (d :: rest)]

theorem filter_stripTrailingSlashL (l : List Char) :
    (stripTrailingSlashL l).filter (fun c => !(c == '/')) =
      l.filter (fun c => !(c == '/')) := by
  unfold stripTrailingSlashL
  split
  · next hcond =>
    obtain ⟨hne, hlast⟩ := hcond
    conv_rhs => rw [← List.dropLast_append_getLast? '/' hlast]
    simp [List.filter_append]
  · rfl

theorem stripTrailingSlashL_last (l : List Char) (h : noDblSlash l = true) :
    stripTrailingSlashL l = ['/'] ∨
      ((stripTrailingSlashL l).getLast? == some '/') = false := by
  unfold stripTrailingSlashL
  split
  · next hcond =>
    obtain ⟨hne, hlast⟩ := hcond
    right
    simp only [beq_eq_false_iff_ne, ne_eq]
    intro hd
    exact noDbl_no_trailing_pair l h hlast hd
  · next hcond =>
    rw [not_and_or] at hcond
    rcases hcond with hl | hlast
    · left
      simpa using hl
    · right
      simpa [beq_eq_false_iff_ne] using hlast

theorem noDbl_stripTrailingSlashL (l : List Char) (h : noDblSlash l = true) :
    noDblSlash (stripTrailingSlashL l) = true := by
  unfold stripTrailingSlashL
  split
  · exact noDbl_dropLast l h
  · exact h

theorem stripTrailingSlashL_idem_of_noDbl (l : List Char) (h : noDblSlash l = true) :
    stripTrailingSlashL (stripTrailingSlashL l) = stripTrailingSlashL l := by
  rcases stripTrailingSlashL_last l h with h1 | h1
  · rw [h1]
    rfl
  · unfold stripTrailingSlashL
    rw [if_neg]
    rw [beq_eq_false_iff_ne] at h1
    intro hc
    exact h1 hc.2

theorem strLower_idem (s : String) : strLower (strLower s) = strLower s := by
  show String.mk (lowerL (lowerL s.toList)) = String.mk (lowerL s.toList)
  unfold lowerL
  rw [List.map_map]
  exact congrArg String.mk (List.map_congr_left fun a _ => charToLower_idem a)

theorem normPath_idem (p : List Char) :
    stripTrailingSlashL (collapseL (stripTrailingSlashL (collapseL p))) =
      stripTrailingSlashL (collapseL p) := by
  have hC : noDblSlash (collapseL p) = true := noDbl_collapseL p
  have hP : noDblSlash (stripTrailingSlashL (collapseL p)) = true :=
    noDbl_stripTrailingSlashL _ hC
  rw [collapseL_eq_of_noDbl _ hP]
  exact stripTrailingSlashL_idem_of_noDbl _ hC

/-- C8: for every parsed URL the normalizer strips the fragment,
lower-cases the host, keeps a query parameter exactly when its key does not
match `utm_*` case-insensitively (so `keep=1` stays and `utm_source=x` is
dropped in the concrete example), collapses repeated path separators (no
two adjacent `/` remain, all non-separator characters are preserved in
order), and strips a single trailing separator except for the root path. -/
theorem c8_normalize_components :
    (∀ u : JSURL,
      (URLNormalizer.normalize u).fragment = none ∧
      (URLNormalizer.normalize u).host = strLower u.host ∧
      (∀ kv : String × String,
        kv ∈ (URLNormalizer.normalize u).params ↔
          kv ∈ u.params ∧ isUtmKey kv.1 = false) ∧
      noDblSlash (URLNormalizer.normalize u).pathname.toList = true ∧
      ((URLNormalizer.normalize u).pathname = "/" ∨
        (((URLNormalizer.normalize u).pathname.toList.getLast? == some '/') = false)) ∧
      (URLNormalizer.normalize u).pathname.toList.filter (fun c => !(c == '/')) =
        u.pathname.toList.filter (fun c => !(c == '/'))) ∧
    URLNormalizer.normalize utmExample =
      { scheme := "https", host := "a.com", pathname := "/",
        params := [("keep", "1")], fragment := none } := by
  refine ⟨fun u => ⟨rfl, rfl, ?_, ?_, ?_, ?_⟩, by decide⟩
  · intro kv
    show kv ∈ u.params.filter (fun p => !(isUtmKey p.1)) ↔ _
    simp [List.mem_filter]
  · exact noDbl_stripTrailingSlashL (collapseL u.pathname.toList)
      (noDbl_collapseL u.pathname.toList)
  · rcases stripTrailingSlashL_last (collapseL u.pathname.toList)
      (noDbl_collapseL u.pathname.toList) with h | h
    · left
      show String.mk (stripTrailingSlashL (collapseL u.pathname.toList)) = "/"
      rw [h]
    · right
      exact h
  · show (stripTrailingSlashL (collapseL u.pathname.toList)).filter (fun c => !(c == '/')) =
      u.pathname.toList.filter (fun c => !(c == '/'))
    rw [filter_stripTrailingSlashL, filter_collapseL]

/-- C9: the URL normalizer is idempotent on parsed URLs. -/
theorem c9_normalize_idempotent (u : JSURL) :
    URLNormalizer.normalize (URLNormalizer.normalize u) = URLNormalizer.normalize u := by
  unfold URLNormalizer.normalize
  simp only [JSURL.mk.injEq, true_and, and_true]
  exact ⟨strLower_idem u.host, congrArg String.mk (normPath_idem u.pathname.toList),
    List.filter_eq_self.mpr fun a ha => (List.mem_filter.mp ha).2⟩
